import Mathlib

/-!
Verification development for the Teach_Evaluations repository
(`src/app.py` and `src/teach_eval.py`).

The response-normalization pipeline of `app.py` is embedded shallowly:

* Decoded JSON values are modelled by the inductive type `JVal`
  (`null`, booleans, integers, strings, arrays, objects).  JSON real
  numbers do not occur in any property considered here and are left out
  of the model.  A decoded JSON object (a Python `dict`) is an
  association list `JObj`; `get?` is `dict.__getitem__` presence lookup,
  `getD` is `dict.get(key, default)` and `getN` is `dict.get(key)`
  (which yields Python `None`, modelled by `JVal.vNull`).
* Python truthiness of decoded values is `truthy`; `x or y` on such
  values is `pyOr`.
* `adapt_feedback` is a literal transcription of the adapter in
  `app.py` (lines 62-76).
* `extract_json` models `app.py` lines 79-84: `text.strip()` is
  `pyStrip` (Python's whitespace set), and
  `re.search(r"\x7b.*\x7d", text, re.DOTALL)` is modelled by
  `searchStart`/`lastIdx`: the pattern matches at position `i` exactly
  when `s[i]` is an opening brace and some closing brace occurs later,
  `re.search` picks the leftmost such start, and the greedy `.*` under
  `DOTALL` extends the match to the last closing brace of the text.
* `LessonFeedback` is the pydantic schema; `assemble` models pydantic
  construction `LessonFeedback(**adapted_dict)` with lax coercion
  (a string field accepts exactly strings, an integer field accepts
  integers and integer-formatted strings, a list-of-string field
  accepts lists whose members are all strings); it returns `none` where
  pydantic would raise a validation error.
* `evaluate_lesson` models the `/evaluate` handler of `app.py`
  (lines 92-115) and `teach_eval_main` models `main` of
  `teach_eval.py` (lines 122-128).  The two external collaborators are
  parameters: `gw` is the LLM gateway (`llm.invoke`, returning the raw
  response text) and `loads` is `json.loads` restricted to object
  literals (every span handed to it by the pipeline begins with an
  opening brace, so a successful decode is necessarily an object).
  Each model additionally returns the number of gateway invocations
  performed.
-/

/-- Decoded JSON values (Python objects produced by `json.loads`).
`vNull` doubles as Python `None`. -/
inductive JVal where
  | vNull : JVal
  | vBool : Bool → JVal
  | vInt : Int → JVal
  | vStr : String → JVal
  | vList : List JVal → JVal
  | vObj : List (String × JVal) → JVal

/-- A decoded JSON object: a Python `dict` keyed by strings. -/
abbrev JObj := List (String × JVal)

/-- Python truthiness of a decoded JSON value. -/
def truthy : JVal → Bool
  | .vNull => false
  | .vBool b => b
  | .vInt n => n != 0
  | .vStr s => !s.isEmpty
  | .vList l => !l.isEmpty
  | .vObj o => !o.isEmpty

/-- Presence lookup in a decoded object (first binding wins, as in a
Python `dict`, whose keys are unique). -/
def get? : JObj → String → Option JVal
  | [], _ => none
  | (k, v) :: rest, key => if k = key then some v else get? rest key

/-- Python `raw_dict.get(key, default)`. -/
def getD (m : JObj) (key : String) (d : JVal) : JVal :=
  (get? m key).getD d

/-- Python `raw_dict.get(key)` — the default is `None`. -/
def getN (m : JObj) (key : String) : JVal :=
  (get? m key).getD JVal.vNull

/-- Python `a or b` on decoded JSON values. -/
def pyOr (a b : JVal) : JVal :=
  if truthy a then a else b

/-- Transcription of `adapt_feedback` (`src/app.py` lines 62-76). -/
def adapt_feedback (raw_dict : JObj) : JObj :=
  [ ("topic", getD raw_dict "topic" (JVal.vStr "Unknown Topic")),
    ("numerical_grade",
      pyOr (getN raw_dict "numerical_grade") (getD raw_dict "overall_score" (JVal.vInt 0))),
    ("letter_grade", getD raw_dict "letter_grade" (JVal.vStr "N/A")),
    ("score_content",
      pyOr (getN raw_dict "score_content") (getD raw_dict "content_score" (JVal.vInt 0))),
    ("score_organization",
      pyOr (getN raw_dict "score_organization") (getD raw_dict "organization_score" (JVal.vInt 0))),
    ("score_mechanics",
      pyOr (getN raw_dict "score_mechanics") (getD raw_dict "mechanics_score" (JVal.vInt 0))),
    ("calculation",
      pyOr (getN raw_dict "calculation") (getD raw_dict "score_breakdown" (JVal.vStr ""))),
    ("strengths", getD raw_dict "strengths" (JVal.vList [])),
    ("weaknesses", getD raw_dict "weaknesses" (JVal.vList [])),
    ("improvement_suggestions", getD raw_dict "improvement_suggestions" (JVal.vList [])),
    ("mechanics_issues", getD raw_dict "mechanics_issues" (JVal.vList [])) ]

/-- Characters stripped by Python `str.strip()` on ASCII text. -/
def isPyWs (c : Char) : Bool :=
  c == ' ' || c == '\t' || c == '\n' || c == '\r' || c == '\x0b' || c == '\x0c'

/-- Python `text.strip()`. -/
def pyStrip (s : List Char) : List Char :=
  ((s.dropWhile isPyWs).reverse.dropWhile isPyWs).reverse

/-- Index of the first occurrence of `c`. -/
def firstIdx (c : Char) : List Char → Option Nat
  | [] => none
  | a :: rest => if a = c then some 0 else (firstIdx c rest).map (· + 1)

/-- Index of the last occurrence of `c`. -/
def lastIdx (c : Char) : List Char → Option Nat
  | [] => none
  | a :: rest =>
    match lastIdx c rest with
    | some j => some (j + 1)
    | none => if a = c then some 0 else none

/-- Start position chosen by `re.search(r"\x7b.*\x7d", s, re.DOTALL)`:
the pattern matches at a position holding an opening brace that is
followed (strictly later) by some closing brace, and `re.search`
returns the leftmost matching position. -/
def searchStart : List Char → Option Nat
  | [] => none
  | c :: rest =>
    if c = '\x7b' ∧ (lastIdx '\x7d' rest).isSome = true then some 0
    else (searchStart rest).map (· + 1)

/-- Transcription of `extract_json` (`src/app.py` lines 79-84): strip
the text, search for `\x7b.*\x7d` (DOTALL, greedy — the match runs from
the leftmost viable opening brace to the last closing brace of the
text), and fall back to the literal two-character object `"\x7b\x7d"`
when there is no match. -/
def extract_json (text : List Char) : List Char :=
  let s := pyStrip text
  match searchStart s, lastIdx '\x7d' s with
  | some i, some j => (s.drop i).take (j + 1 - i)
  | _, _ => ['\x7b', '\x7d']

/-- Claimed behaviour of the extractor, following the wording of the
spec (§4.3 and §8): the substring of the trimmed text from the first
opening brace to the last closing brace, and the literal `"\x7b\x7d"`
exactly when no opening brace is found.  The wording makes no
prediction when an opening brace occurs but no closing brace does, so
that case is `none`. -/
def extract_json_claimed (text : List Char) : Option (List Char) :=
  let s := pyStrip text
  match firstIdx '\x7b' s with
  | none => some ['\x7b', '\x7d']
  | some i => (lastIdx '\x7d' s).map fun j => (s.drop i).take (j + 1 - i)

/-- The pydantic schema `LessonFeedback` (`src/app.py` lines 19-30). -/
structure LessonFeedback where
  topic : String
  numerical_grade : Int
  letter_grade : String
  score_content : Int
  score_organization : Int
  score_mechanics : Int
  calculation : String
  strengths : List String
  weaknesses : List String
  improvement_suggestions : List String
  mechanics_issues : List String

/-- Pydantic lax validation of a `str` field: accepts exactly strings. -/
def coeStr : JVal → Option String
  | .vStr s => some s
  | _ => none

/-- Pydantic lax validation of an `int` field: accepts integers and
integer-formatted strings (booleans and everything else are rejected). -/
def coeInt : JVal → Option Int
  | .vInt n => some n
  | .vStr s => s.toInt?
  | _ => none

/-- Pydantic lax validation of a `list[str]` field. -/
def coeStrList : JVal → Option (List String)
  | .vList xs => xs.mapM coeStr
  | _ => none

/-- Pydantic model construction `LessonFeedback(**adapted_dict)`
(`src/app.py` line 114): every schema field is validated from the
mapping; `none` models a raised `ValidationError`. -/
def assemble (m : JObj) : Option LessonFeedback := do
  let topic ← (get? m "topic").bind coeStr
  let numerical_grade ← (get? m "numerical_grade").bind coeInt
  let letter_grade ← (get? m "letter_grade").bind coeStr
  let score_content ← (get? m "score_content").bind coeInt
  let score_organization ← (get? m "score_organization").bind coeInt
  let score_mechanics ← (get? m "score_mechanics").bind coeInt
  let calculation ← (get? m "calculation").bind coeStr
  let strengths ← (get? m "strengths").bind coeStrList
  let weaknesses ← (get? m "weaknesses").bind coeStrList
  let improvement_suggestions ← (get? m "improvement_suggestions").bind coeStrList
  let mechanics_issues ← (get? m "mechanics_issues").bind coeStrList
  pure { topic := topic, numerical_grade := numerical_grade, letter_grade := letter_grade,
         score_content := score_content, score_organization := score_organization,
         score_mechanics := score_mechanics, calculation := calculation,
         strengths := strengths, weaknesses := weaknesses,
         improvement_suggestions := improvement_suggestions,
         mechanics_issues := mechanics_issues }

/-- The feedback value produced when every field falls back to its
default (empty decoded mapping). -/
def default_feedback : LessonFeedback :=
  { topic := "Unknown Topic", numerical_grade := 0, letter_grade := "N/A",
    score_content := 0, score_organization := 0, score_mechanics := 0,
    calculation := "", strengths := [], weaknesses := [],
    improvement_suggestions := [], mechanics_issues := [] }

/-- System message of the web app's prompt template, transcribed from
`src/app.py` lines 39-57 (the template has no placeholder, so the
`partial(format_instructions=...)` call leaves it unchanged). -/
def sysPromptApp : String :=
  "\nYou are an expert educator and evaluator. Evaluate a lesson explanation.\n\nRubric (scores 0-100 before weighting):\n- Content: 80%\n- Organization: 15%\n- Mechanics: 5% (spelling/grammar)\n\nRequirements:\n1. Provide ONLY a JSON object with the following keys exactly:\n   topic, numerical_grade, letter_grade, score_content, score_organization, \n   score_mechanics, calculation, strengths, weaknesses, improvement_suggestions, mechanics_issues\n2. Numeric grade = round(0.8*score_content + 0.15*score_organization + 0.05*score_mechanics)\n3. Include a short \x27calculation\x27 string showing weighted calculation\n4. Up to 5 mechanics issues (spelling/grammar), empty list if none\n5. Emphasize content: strengths, weaknesses, and at least 3 improvement suggestions must focus on conceptual clarity and organization\n\nALWAYS respond with VALID JSON only. Do NOT include explanations, markdown fences, or extra text.\n"

/-- System message of the console prompt template, transcribed from
`src/teach_eval.py` lines 33-63. -/
def sysPromptTE : String :=
  "\nYou are an expert educator and evaluator. The user will provide a lesson explanation on a topic.\n\nEvaluate using this component rubric (all component scores are expressed on a 0-100 scale *before* weighting):\n- Content (weight 80%): accuracy, depth of understanding, meaningful examples, correct use of concepts.\n- Organization (weight 15%): logical flow, structure, clear progression, signposting.\n- Mechanics (weight 5%): spelling, grammar, punctuation. Mechanics should only slightly influence the final grade.\n  - Mechanics deductions must be small: mechanics can change the final numeric grade by at most +/- 7 points total.\n  - If mechanics seriously interfere with comprehension, note that explicitly and it may justify a larger deduction, but explain why.\n\nRequirements for your response:\n1. Provide all fields exactly in the Pydantic schema that follows format_instructions. Do not output any other text.\n2. For numeric grade: compute a weighted total = round(0.80*score_content + 0.15*score_organization + 0.05*score_mechanics).\n3. Include a short \x27calculation\x27 string showing the three component scores and the weighted computation (example: \"0.8*86 + 0.15*78 + 0.05*92 = 85\").\n4. Provide up to 5 specific mechanics issues (spelling/grammar) with short excerpts or corrections in \x27mechanics_issues\x27. If none, return an empty list.\n5. Emphasize content: if two explanations only differ by minor spelling mistakes, the numerical grade should primarily reflect content differences and should not be identical only because the model ignored mechanics — your calculation must show the small mechanics effect.\n6. Return strengths, weaknesses, and at least 3 concrete improvement suggestions focused on conceptual clarity and organization (not only grammar).\n\nRespond only in the structured format that the parser expects.\n            "

/-- The user query f-string, identical in `src/app.py` line 96 and
`src/teach_eval.py` line 85. -/
def buildQuery (topic explanation : String) : String :=
  "Topic: " ++ topic ++ "\n\nUser\x27s explanation:\n" ++ explanation ++
    "\n\nPlease evaluate according to the rubric."

/-- The composed request handed to the gateway by the web app: system
rubric instruction followed by the formatted user query. -/
def composedPromptApp (topic explanation : String) : String :=
  sysPromptApp ++ buildQuery topic explanation

/-- The composed request handed to the gateway by the console entry
point. -/
def composedPromptTE (topic explanation : String) : String :=
  sysPromptTE ++ buildQuery topic explanation

/-- Substring test: `containsSub pat hay` holds when `pat` occurs
contiguously inside `hay`. -/
def containsSub (pat : List Char) : List Char → Bool
  | [] => pat.isEmpty
  | c :: rest => pat.isPrefixOf (c :: rest) || containsSub pat rest

/-- Outcome of the `/evaluate` web handler. -/
inductive WebResult where
  | errorPage : String → WebResult
  | feedbackPage : LessonFeedback → WebResult
  | errorValidation : WebResult

/-- Model of the `/evaluate` handler (`src/app.py` lines 92-115).
`loads` models `json.loads` on object spans (`none` = decode error),
`gw` models `llm.invoke` returning the raw response text.  The second
component counts gateway invocations.  `errorValidation` models the
`ValidationError` raised by `LessonFeedback(**adapted_dict)`, which the
handler does not catch. -/
def evaluate_lesson (loads : List Char → Option JObj) (gw : String → String)
    (topic explanation : String) : WebResult × Nat :=
  if (pyStrip explanation.data).isEmpty then
    (.errorPage "Explanation cannot be empty.", 0)
  else
    let raw_text := gw (composedPromptApp topic explanation)
    if (pyStrip raw_text.data).isEmpty then
      (.errorPage "Empty response from LLM.", 1)
    else
      let json_text := extract_json raw_text.data
      let raw_dict := (loads json_text).getD []
      let adapted_dict := adapt_feedback raw_dict
      match assemble adapted_dict with
      | some fb => (.feedbackPage fb, 1)
      | none => (.errorValidation, 1)

/-- The post-gateway tail of the handler as a function of the raw
response text alone: extraction, decode with empty-mapping fallback,
adaptation, assembly. -/
def pipelineWeb (loads : List Char → Option JObj) (raw_text : String) : WebResult :=
  match assemble (adapt_feedback ((loads (extract_json raw_text.data)).getD [])) with
  | some fb => .feedbackPage fb
  | none => .errorValidation

/-- Outcome of the console entry point. -/
inductive ConsoleResult where
  | noInput : ConsoleResult
  | graded : String → ConsoleResult

/-- Model of `main` in `src/teach_eval.py` (lines 122-128): empty
explanation prints the no-input message and returns before any model
call; otherwise `grade_explanation` invokes the gateway once and the
raw response goes to display.  The second component counts gateway
invocations. -/
def teach_eval_main (gw : String → String) (topic explanation : String) :
    ConsoleResult × Nat :=
  if (pyStrip explanation.data).isEmpty then
    (.noInput, 0)
  else
    (.graded (gw (composedPromptTE topic explanation)), 1)

/-! ### Lookup and resolution lemmas -/

lemma get?_cons_self (k : String) (v : JVal) (m : JObj) :
    get? ((k, v) :: m) k = some v := by
  simp [get?]

lemma get?_cons_ne (k : String) (v : JVal) (m : JObj) (key : String)
    (h : k ≠ key) : get? ((k, v) :: m) key = get? m key := by
  simp [get?, h]

lemma get?_eq_none_of_not_mem (m : JObj) (k : String)
    (h : k ∉ m.map Prod.fst) : get? m k = none := by
  induction m with
  | nil => rfl
  | cons p rest ih =>
    obtain ⟨k', v⟩ := p
    simp only [List.map_cons, List.mem_cons] at h
    push_neg at h
    simp [get?, Ne.symm h.1, ih h.2]

lemma pyOr_of_truthy {a : JVal} (b : JVal) (h : truthy a = true) :
    pyOr a b = a := by
  simp [pyOr, h]

lemma pyOr_of_falsy {a : JVal} (b : JVal) (h : truthy a = false) :
    pyOr a b = b := by
  simp [pyOr, h]

lemma resolve_exact (m : JObj) (f a : String) (d v : JVal)
    (h : get? m f = some v) (ht : truthy v = true) :
    pyOr (getN m f) (getD m a d) = v := by
  have hN : getN m f = v := by simp [getN, h]
  rw [hN, pyOr_of_truthy _ ht]

lemma resolve_alias (m : JObj) (f a : String) (d v : JVal)
    (hf : truthy (getN m f) = false) (ha : get? m a = some v) :
    pyOr (getN m f) (getD m a d) = v := by
  rw [pyOr_of_falsy _ hf]
  simp [getD, ha]

lemma resolve_default (m : JObj) (f a : String) (d : JVal)
    (hf : truthy (getN m f) = false) (ha : get? m a = none) :
    pyOr (getN m f) (getD m a d) = d := by
  rw [pyOr_of_falsy _ hf]
  simp [getD, ha]

/-! ### Field projections of the adapter output -/

lemma adapt_get_topic (m : JObj) :
    getN (adapt_feedback m) "topic" = getD m "topic" (JVal.vStr "Unknown Topic") := rfl

lemma adapt_get_numerical_grade (m : JObj) :
    getN (adapt_feedback m) "numerical_grade" =
      pyOr (getN m "numerical_grade") (getD m "overall_score" (JVal.vInt 0)) := rfl

lemma adapt_get_letter_grade (m : JObj) :
    getN (adapt_feedback m) "letter_grade" = getD m "letter_grade" (JVal.vStr "N/A") := rfl

lemma adapt_get_score_content (m : JObj) :
    getN (adapt_feedback m) "score_content" =
      pyOr (getN m "score_content") (getD m "content_score" (JVal.vInt 0)) := rfl

lemma adapt_get_score_organization (m : JObj) :
    getN (adapt_feedback m) "score_organization" =
      pyOr (getN m "score_organization") (getD m "organization_score" (JVal.vInt 0)) := rfl

lemma adapt_get_score_mechanics (m : JObj) :
    getN (adapt_feedback m) "score_mechanics" =
      pyOr (getN m "score_mechanics") (getD m "mechanics_score" (JVal.vInt 0)) := rfl

lemma adapt_get_calculation (m : JObj) :
    getN (adapt_feedback m) "calculation" =
      pyOr (getN m "calculation") (getD m "score_breakdown" (JVal.vStr "")) := rfl

lemma adapt_get_strengths (m : JObj) :
    getN (adapt_feedback m) "strengths" = getD m "strengths" (JVal.vList []) := rfl

lemma adapt_get_weaknesses (m : JObj) :
    getN (adapt_feedback m) "weaknesses" = getD m "weaknesses" (JVal.vList []) := rfl

lemma adapt_get_improvement_suggestions (m : JObj) :
    getN (adapt_feedback m) "improvement_suggestions" =
      getD m "improvement_suggestions" (JVal.vList []) := rfl

lemma adapt_get_mechanics_issues (m : JObj) :
    getN (adapt_feedback m) "mechanics_issues" =
      getD m "mechanics_issues" (JVal.vList []) := rfl

lemma truthy_vNull : truthy JVal.vNull = false := rfl

/-! ### Claims about the Schema Adapter -/

/-- Claim C2: in `adapt_feedback`, for the fields `numerical_grade`,
`score_content`, `score_organization`, `score_mechanics` and
`calculation`, a falsy value under the exact key is indistinguishable
from a missing key — binding the exact key to any falsy value leaves
the adapter's output unchanged, and the lookup falls through to the
alias key and then to the default (for `{"numerical_grade": 0}` with an
`overall_score` alias present, the adapted value is the alias value,
not 0). -/
theorem adapt_falsy_fallback :
    (∀ (m : JObj) (v : JVal), truthy v = false → get? m "numerical_grade" = none →
        adapt_feedback (("numerical_grade", v) :: m) = adapt_feedback m)
    ∧ (∀ (m : JObj) (v : JVal), truthy v = false → get? m "score_content" = none →
        adapt_feedback (("score_content", v) :: m) = adapt_feedback m)
    ∧ (∀ (m : JObj) (v : JVal), truthy v = false → get? m "score_organization" = none →
        adapt_feedback (("score_organization", v) :: m) = adapt_feedback m)
    ∧ (∀ (m : JObj) (v : JVal), truthy v = false → get? m "score_mechanics" = none →
        adapt_feedback (("score_mechanics", v) :: m) = adapt_feedback m)
    ∧ (∀ (m : JObj) (v : JVal), truthy v = false → get? m "calculation" = none →
        adapt_feedback (("calculation", v) :: m) = adapt_feedback m)
    ∧ getN (adapt_feedback [("numerical_grade", JVal.vInt 0),
        ("overall_score", JVal.vInt 55)]) "numerical_grade" = JVal.vInt 55
    ∧ getN (adapt_feedback [("numerical_grade", JVal.vInt 0)]) "numerical_grade" =
        JVal.vInt 0 := by
  refine ⟨?_, ?_, ?_, ?_, ?_, rfl, rfl⟩
  all_goals
    intro m v hv hm
    simp [adapt_feedback, getD, getN, get?, pyOr, hv, hm, truthy_vNull]

/-- Witness for C2 at a concrete input: an explicit empty-string
`calculation` behaves exactly like a missing key. -/
theorem adapt_falsy_fallback_witness :
    adapt_feedback [("calculation", JVal.vStr "")] = adapt_feedback [] :=
  adapt_falsy_fallback.2.2.2.2.1 [] (JVal.vStr "") rfl rfl

/-- Claim C3: the adapter resolves each aliased field by exact key
first (when truthy), then the documented alias (`overall_score`,
`content_score`, `organization_score`, `mechanics_score`,
`score_breakdown`), then the type-appropriate default; non-aliased
fields absent from the mapping get their sentinel or empty defaults;
in particular `{"overall_score": 77}` adapts to `numerical_grade` 77. -/
theorem adapt_resolution_order :
    (∀ (m : JObj) (v : JVal), get? m "numerical_grade" = some v → truthy v = true →
        getN (adapt_feedback m) "numerical_grade" = v)
    ∧ (∀ (m : JObj) (v : JVal), truthy (getN m "numerical_grade") = false →
        get? m "overall_score" = some v → getN (adapt_feedback m) "numerical_grade" = v)
    ∧ (∀ m : JObj, truthy (getN m "numerical_grade") = false →
        get? m "overall_score" = none →
        getN (adapt_feedback m) "numerical_grade" = JVal.vInt 0)
    ∧ (∀ (m : JObj) (v : JVal), get? m "score_content" = some v → truthy v = true →
        getN (adapt_feedback m) "score_content" = v)
    ∧ (∀ (m : JObj) (v : JVal), truthy (getN m "score_content") = false →
        get? m "content_score" = some v → getN (adapt_feedback m) "score_content" = v)
    ∧ (∀ m : JObj, truthy (getN m "score_content") = false →
        get? m "content_score" = none →
        getN (adapt_feedback m) "score_content" = JVal.vInt 0)
    ∧ (∀ (m : JObj) (v : JVal), get? m "score_organization" = some v → truthy v = true →
        getN (adapt_feedback m) "score_organization" = v)
    ∧ (∀ (m : JObj) (v : JVal), truthy (getN m "score_organization") = false →
        get? m "organization_score" = some v →
        getN (adapt_feedback m) "score_organization" = v)
    ∧ (∀ m : JObj, truthy (getN m "score_organization") = false →
        get? m "organization_score" = none →
        getN (adapt_feedback m) "score_organization" = JVal.vInt 0)
    ∧ (∀ (m : JObj) (v : JVal), get? m "score_mechanics" = some v → truthy v = true →
        getN (adapt_feedback m) "score_mechanics" = v)
    ∧ (∀ (m : JObj) (v : JVal), truthy (getN m "score_mechanics") = false →
        get? m "mechanics_score" = some v → getN (adapt_feedback m) "score_mechanics" = v)
    ∧ (∀ m : JObj, truthy (getN m "score_mechanics") = false →
        get? m "mechanics_score" = none →
        getN (adapt_feedback m) "score_mechanics" = JVal.vInt 0)
    ∧ (∀ (m : JObj) (v : JVal), get? m "calculation" = some v → truthy v = true →
        getN (adapt_feedback m) "calculation" = v)
    ∧ (∀ (m : JObj) (v : JVal), truthy (getN m "calculation") = false →
        get? m "score_breakdown" = some v → getN (adapt_feedback m) "calculation" = v)
    ∧ (∀ m : JObj, truthy (getN m "calculation") = false →
        get? m "score_breakdown" = none →
        getN (adapt_feedback m) "calculation" = JVal.vStr "")
    ∧ (∀ m : JObj, get? m "topic" = none →
        getN (adapt_feedback m) "topic" = JVal.vStr "Unknown Topic")
    ∧ (∀ m : JObj, get? m "letter_grade" = none →
        getN (adapt_feedback m) "letter_grade" = JVal.vStr "N/A")
    ∧ (∀ m : JObj, get? m "strengths" = none →
        getN (adapt_feedback m) "strengths" = JVal.vList [])
    ∧ getN (adapt_feedback [("overall_score", JVal.vInt 77)]) "numerical_grade" =
        JVal.vInt 77 := by
  refine ⟨?_, ?_, ?_, ?_, ?_, ?_, ?_, ?_, ?_, ?_, ?_, ?_, ?_, ?_, ?_, ?_, ?_, ?_, rfl⟩
  · intro m v h ht
    rw [adapt_get_numerical_grade]; exact resolve_exact m _ _ _ v h ht
  · intro m v hf ha
    rw [adapt_get_numerical_grade]; exact resolve_alias m _ _ _ v hf ha
  · intro m hf ha
    rw [adapt_get_numerical_grade]; exact resolve_default m _ _ _ hf ha
  · intro m v h ht
    rw [adapt_get_score_content]; exact resolve_exact m _ _ _ v h ht
  · intro m v hf ha
    rw [adapt_get_score_content]; exact resolve_alias m _ _ _ v hf ha
  · intro m hf ha
    rw [adapt_get_score_content]; exact resolve_default m _ _ _ hf ha
  · intro m v h ht
    rw [adapt_get_score_organization]; exact resolve_exact m _ _ _ v h ht
  · intro m v hf ha
    rw [adapt_get_score_organization]; exact resolve_alias m _ _ _ v hf ha
  · intro m hf ha
    rw [adapt_get_score_organization]; exact resolve_default m _ _ _ hf ha
  · intro m v h ht
    rw [adapt_get_score_mechanics]; exact resolve_exact m _ _ _ v h ht
  · intro m v hf ha
    rw [adapt_get_score_mechanics]; exact resolve_alias m _ _ _ v hf ha
  · intro m hf ha
    rw [adapt_get_score_mechanics]; exact resolve_default m _ _ _ hf ha
  · intro m v h ht
    rw [adapt_get_calculation]; exact resolve_exact m _ _ _ v h ht
  · intro m v hf ha
    rw [adapt_get_calculation]; exact resolve_alias m _ _ _ v hf ha
  · intro m hf ha
    rw [adapt_get_calculation]; exact resolve_default m _ _ _ hf ha
  · intro m h
    rw [adapt_get_topic]; simp [getD, h]
  · intro m h
    rw [adapt_get_letter_grade]; simp [getD, h]
  · intro m h
    rw [adapt_get_strengths]; simp [getD, h]

/-- Witness for C3 at a concrete input: a truthy exact key wins. -/
theorem adapt_resolution_order_witness :
    getN (adapt_feedback [("numerical_grade", JVal.vInt 91)]) "numerical_grade" =
      JVal.vInt 91 :=
  adapt_resolution_order.1 [("numerical_grade", JVal.vInt 91)] (JVal.vInt 91) rfl rfl

/-- Claim C4: given the empty decoded mapping (no JSON span found or
decode failed), the adapter fills every field with its default and
pydantic assembly still succeeds, producing the feedback with
`numerical_grade` 0, all component scores 0, empty lists, the sentinel
unknown-topic label and the sentinel not-available letter grade. -/
theorem assemble_empty_default :
    adapt_feedback [] =
      [ ("topic", JVal.vStr "Unknown Topic"), ("numerical_grade", JVal.vInt 0),
        ("letter_grade", JVal.vStr "N/A"), ("score_content", JVal.vInt 0),
        ("score_organization", JVal.vInt 0), ("score_mechanics", JVal.vInt 0),
        ("calculation", JVal.vStr ""), ("strengths", JVal.vList []),
        ("weaknesses", JVal.vList []), ("improvement_suggestions", JVal.vList []),
        ("mechanics_issues", JVal.vList []) ]
    ∧ assemble (adapt_feedback []) =
        some { topic := "Unknown Topic", numerical_grade := 0, letter_grade := "N/A",
               score_content := 0, score_organization := 0, score_mechanics := 0,
               calculation := "", strengths := [], weaknesses := [],
               improvement_suggestions := [], mechanics_issues := [] } :=
  ⟨rfl, rfl⟩

/-- Claim C9: the fields `topic`, `letter_grade`, `strengths`,
`weaknesses`, `improvement_suggestions` and `mechanics_issues` use
presence-based defaulting: any present value, falsy or not, is kept —
`{"topic": ""}` adapts to the empty string, not the sentinel label —
asymmetrically with the truthiness-based aliased fields, where an empty
`calculation` falls through to its alias. -/
theorem adapt_presence_fields :
    (∀ (m : JObj) (v : JVal), get? m "topic" = some v →
        getN (adapt_feedback m) "topic" = v)
    ∧ (∀ (m : JObj) (v : JVal), get? m "letter_grade" = some v →
        getN (adapt_feedback m) "letter_grade" = v)
    ∧ (∀ (m : JObj) (v : JVal), get? m "strengths" = some v →
        getN (adapt_feedback m) "strengths" = v)
    ∧ (∀ (m : JObj) (v : JVal), get? m "weaknesses" = some v →
        getN (adapt_feedback m) "weaknesses" = v)
    ∧ (∀ (m : JObj) (v : JVal), get? m "improvement_suggestions" = some v →
        getN (adapt_feedback m) "improvement_suggestions" = v)
    ∧ (∀ (m : JObj) (v : JVal), get? m "mechanics_issues" = some v →
        getN (adapt_feedback m) "mechanics_issues" = v)
    ∧ getN (adapt_feedback [("topic", JVal.vStr "")]) "topic" = JVal.vStr ""
    ∧ getN (adapt_feedback [("calculation", JVal.vStr ""),
        ("score_breakdown", JVal.vStr "fallback")]) "calculation" =
        JVal.vStr "fallback" := by
  refine ⟨?_, ?_, ?_, ?_, ?_, ?_, rfl, rfl⟩
  · intro m v h
    rw [adapt_get_topic]; simp [getD, h]
  · intro m v h
    rw [adapt_get_letter_grade]; simp [getD, h]
  · intro m v h
    rw [adapt_get_strengths]; simp [getD, h]
  · intro m v h
    rw [adapt_get_weaknesses]; simp [getD, h]
  · intro m v h
    rw [adapt_get_improvement_suggestions]; simp [getD, h]
  · intro m v h
    rw [adapt_get_mechanics_issues]; simp [getD, h]

/-- Witness for C9 at a concrete input. -/
theorem adapt_presence_fields_witness :
    getN (adapt_feedback [("topic", JVal.vStr "Giraffes")]) "topic" =
      JVal.vStr "Giraffes" :=
  adapt_presence_fields.1 [("topic", JVal.vStr "Giraffes")] (JVal.vStr "Giraffes") rfl

/-- Claim C10: for every input mapping, the adapter's output binds
exactly the 11 schema field names, in order, and every unrecognized key
is absent from the output. -/
theorem adapt_key_set (m : JObj) :
    (adapt_feedback m).map Prod.fst =
      ["topic", "numerical_grade", "letter_grade", "score_content",
       "score_organization", "score_mechanics", "calculation", "strengths",
       "weaknesses", "improvement_suggestions", "mechanics_issues"]
    ∧ ∀ k : String,
        k ∉ (["topic", "numerical_grade", "letter_grade", "score_content",
              "score_organization", "score_mechanics", "calculation", "strengths",
              "weaknesses", "improvement_suggestions", "mechanics_issues"] :
              List String) →
        get? (adapt_feedback m) k = none := by
  refine ⟨rfl, ?_⟩
  intro k hk
  exact get?_eq_none_of_not_mem _ k hk

/-- Witness for C10 at a concrete input: an unrecognized key from the
model's output is discarded. -/
theorem adapt_key_set_witness :
    get? (adapt_feedback [("grade_rationale", JVal.vStr "because")])
      "grade_rationale" = none :=
  (adapt_key_set [("grade_rationale", JVal.vStr "because")]).2
    "grade_rationale" (by decide)

/-! ### Claims about the request pipeline -/

/-- Claim C5: a request whose explanation is empty or whitespace-only
after trimming surfaces the empty-input error immediately and issues no
gateway call, in both the web handler and the console entry point. -/
theorem empty_explanation_no_gateway_call
    (loads : List Char → Option JObj) (gw : String → String)
    (topic explanation : String)
    (h : (pyStrip explanation.data).isEmpty = true) :
    evaluate_lesson loads gw topic explanation =
      (.errorPage "Explanation cannot be empty.", 0)
    ∧ teach_eval_main gw topic explanation = (.noInput, 0) := by
  constructor <;> simp [evaluate_lesson, teach_eval_main, h]

/-- Witness for C5 at a concrete whitespace-only explanation. -/
theorem empty_explanation_no_gateway_call_witness :
    evaluate_lesson (fun _ => none) (fun _ => "") "Photosynthesis" "  \n " =
      (.errorPage "Explanation cannot be empty.", 0)
    ∧ teach_eval_main (fun _ => "") "Photosynthesis" "  \n " = (.noInput, 0) :=
  empty_explanation_no_gateway_call (fun _ => none) (fun _ => "") "Photosynthesis"
    "  \n " rfl

/-- Claim C6: whenever the extracted span fails to decode, the failure
is recovered locally by substituting the empty mapping, and the
pipeline still produces the default feedback page — never an error. -/
theorem decode_failure_default_feedback
    (loads : List Char → Option JObj) (raw_text : String)
    (h : loads (extract_json raw_text.data) = none) :
    pipelineWeb loads raw_text = .feedbackPage default_feedback := by
  unfold pipelineWeb
  rw [h]
  rfl

/-- Witness for C6: a decoder that rejects the extracted span. -/
theorem decode_failure_default_feedback_witness :
    pipelineWeb (fun _ => none) "Sorry, I cannot grade this." =
      .feedbackPage default_feedback :=
  decode_failure_default_feedback (fun _ => none) "Sorry, I cannot grade this." rfl

/-- Claim C8: the post-gateway pipeline is a deterministic function of
the raw response text — the handler's outcome depends on the gateway
only through the single response it returns, the non-error path factors
through `pipelineWeb` applied to that response, and equal raw texts
yield equal feedback values. -/
theorem pipeline_deterministic :
    (∀ (loads : List Char → Option JObj) (gw₁ gw₂ : String → String)
        (topic explanation : String),
        gw₁ (composedPromptApp topic explanation) =
          gw₂ (composedPromptApp topic explanation) →
        evaluate_lesson loads gw₁ topic explanation =
          evaluate_lesson loads gw₂ topic explanation)
    ∧ (∀ (loads : List Char → Option JObj) (gw : String → String)
        (topic explanation : String),
        (pyStrip explanation.data).isEmpty = false →
        (pyStrip (gw (composedPromptApp topic explanation)).data).isEmpty = false →
        evaluate_lesson loads gw topic explanation =
          (pipelineWeb loads (gw (composedPromptApp topic explanation)), 1))
    ∧ (∀ (loads : List Char → Option JObj) (r₁ r₂ : String),
        r₁ = r₂ → pipelineWeb loads r₁ = pipelineWeb loads r₂) := by
  refine ⟨?_, ?_, ?_⟩
  · intro loads gw₁ gw₂ topic explanation h
    unfold evaluate_lesson
    rw [h]
  · intro loads gw topic explanation h1 h2
    simp only [evaluate_lesson, pipelineWeb, h1, h2, Bool.false_eq_true, if_false]
    cases assemble (adapt_feedback
      ((loads (extract_json (gw (composedPromptApp topic explanation)).data)).getD [])) <;>
      rfl
  · intro loads r₁ r₂ h
    rw [h]

/-- Witness for C8: two syntactically different gateway stubs agreeing
on the composed request give identical results. -/
theorem pipeline_deterministic_witness :
    evaluate_lesson (fun _ => none) (fun _ => "no json") "t" "e" =
      evaluate_lesson (fun _ => none) (fun _ => "no" ++ " json") "t" "e" :=
  pipeline_deterministic.1 (fun _ => none) (fun _ => "no json")
    (fun _ => "no" ++ " json") "t" "e" rfl

/-! ### Claims about the Response Extractor -/

/-- Characterization of the regex-search model: the leftmost viable
match start exists exactly when the first opening brace precedes the
last closing brace, and in that case it is the first opening brace. -/
lemma searchStart_eq (s : List Char) :
    searchStart s =
      match firstIdx '\x7b' s, lastIdx '\x7d' s with
      | some i, some j => if i < j then some i else none
      | _, _ => none := by
  induction s with
  | nil => rfl
  | cons c rest ih =>
    by_cases hc : c = '\x7b'
    · subst hc
      cases hrest : lastIdx '\x7d' rest with
      | none =>
        have hsr : searchStart rest = none := by
          rw [ih]
          simp only [hrest]
          cases firstIdx '\x7b' rest <;> rfl
        simp [searchStart, firstIdx, lastIdx, hrest, hsr]
      | some j =>
        simp [searchStart, firstIdx, lastIdx, hrest]
    · cases hfo : firstIdx '\x7b' rest with
      | none =>
        have hsr : searchStart rest = none := by
          rw [ih]
          simp only [hfo]
        cases hrest : lastIdx '\x7d' rest with
        | none =>
          by_cases hcc : c = '\x7d' <;>
            simp [searchStart, firstIdx, lastIdx, hc, hcc, hfo, hrest, hsr]
        | some j =>
          simp [searchStart, firstIdx, lastIdx, hc, hfo, hrest, hsr]
      | some i =>
        cases hrest : lastIdx '\x7d' rest with
        | none =>
          have hsr : searchStart rest = none := by
            rw [ih]
            simp only [hfo, hrest]
          by_cases hcc : c = '\x7d' <;>
            simp [searchStart, firstIdx, lastIdx, hc, hcc, hfo, hrest, hsr]
        | some j =>
          have hsr : searchStart rest = if i < j then some i else none := by
            rw [ih]
            simp only [hfo, hrest]
          by_cases hij : i < j <;>
            simp [searchStart, firstIdx, lastIdx, hc, hfo, hrest, hsr, hij]

/-- Claim C1 (amended): `extract_json` returns the span of the trimmed
text from the first opening brace to the last closing brace whenever
that last closing brace occurs after the first opening brace; in every
other case — no opening brace at all, no closing brace at all, or
every closing brace before the first opening brace — it returns the
literal two-character object; on `"blah \x7b\"a\":1\x7d blah"` it
returns `"\x7b\"a\":1\x7d"`, and on text without an opening brace it
returns the literal object. -/
theorem extract_json_first_to_last_brace :
    (∀ t : List Char,
      (firstIdx '\x7b' (pyStrip t) = none → extract_json t = ['\x7b', '\x7d'])
      ∧ (∀ i j, firstIdx '\x7b' (pyStrip t) = some i →
          lastIdx '\x7d' (pyStrip t) = some j →
          extract_json t =
            if i < j then ((pyStrip t).drop i).take (j + 1 - i)
            else ['\x7b', '\x7d'])
      ∧ (∀ i, firstIdx '\x7b' (pyStrip t) = some i →
          lastIdx '\x7d' (pyStrip t) = none →
          extract_json t = ['\x7b', '\x7d']))
    ∧ extract_json ("blah \x7b\"a\":1\x7d blah".data) = ("\x7b\"a\":1\x7d".data)
    ∧ extract_json ("no braces at all".data) = ['\x7b', '\x7d'] := by
  refine ⟨?_, rfl, rfl⟩
  intro t
  refine ⟨?_, ?_, ?_⟩
  · intro h
    unfold extract_json
    dsimp only
    rw [searchStart_eq, h]
  · intro i j hf hl
    unfold extract_json
    dsimp only
    rw [searchStart_eq, hf, hl]
    by_cases hij : i < j <;> simp [hij]
  · intro i hf hl
    unfold extract_json
    dsimp only
    rw [searchStart_eq, hf, hl]

/-- Witness for C1 at a concrete input with surrounding text. -/
theorem extract_json_first_to_last_brace_witness :
    extract_json ("a\x7bb\x7dc".data) = ("\x7bb\x7d".data) := by
  have h := (extract_json_first_to_last_brace.1 ("a\x7bb\x7dc".data)).2.1 1 3 rfl rfl
  simpa using h

/-- Counterexample for C1 as stated: on the input `"\x7d\x7b"` an
opening brace is present, so the claim prescribes the substring of the
trimmed text from the first opening brace (index 1) to the last closing
brace (index 0) — the empty span — yet the code returns the literal
two-character object, because the regex `\x7b.*\x7d` has no match and
the no-match fallback fires even though an opening brace exists. -/
theorem extract_json_claim_counterexample :
    extract_json_claimed ("\x7d\x7b".data) = some []
    ∧ firstIdx '\x7b' (pyStrip ("\x7d\x7b".data)) = some 1
    ∧ extract_json ("\x7d\x7b".data) = ['\x7b', '\x7d']
    ∧ extract_json_claimed ("\x7d\x7b".data) ≠ some (extract_json ("\x7d\x7b".data)) := by
  exact ⟨rfl, rfl, rfl, by decide⟩

/-! ### Claims about the Prompt Builder -/

lemma str_data_append (a b : String) : (a ++ b).data = a.data ++ b.data := rfl

lemma isPrefixOf_append_of_isPrefixOf (p a b : List Char) (h : p.isPrefixOf a = true) :
    p.isPrefixOf (a ++ b) = true := by
  simp only [List.isPrefixOf_iff_prefix] at h ⊢
  exact h.trans (List.prefix_append a b)

lemma isPrefixOf_append_self (p b : List Char) : p.isPrefixOf (p ++ b) = true := by
  simp only [List.isPrefixOf_iff_prefix]
  exact List.prefix_append p b

lemma containsSub_of_isPrefixOf (p hay : List Char) (h : p.isPrefixOf hay = true) :
    containsSub p hay = true := by
  cases hay with
  | nil =>
    cases p with
    | nil => rfl
    | cons x p' => simp at h
  | cons c rest =>
    show (p.isPrefixOf (c :: rest) || containsSub p rest) = true
    rw [h]
    rfl

lemma containsSub_append_right (p a b : List Char) (h : containsSub p b = true) :
    containsSub p (a ++ b) = true := by
  induction a with
  | nil => exact h
  | cons c a' ih =>
    show (p.isPrefixOf (c :: (a' ++ b)) || containsSub p (a' ++ b)) = true
    rw [ih]
    exact Bool.or_true _

lemma containsSub_append_left (p a b : List Char) (h : containsSub p a = true) :
    containsSub p (a ++ b) = true := by
  induction a with
  | nil =>
    cases p with
    | nil =>
      cases b with
      | nil => rfl
      | cons c r =>
        show (List.isPrefixOf [] (c :: r) || containsSub [] r) = true
        rw [List.isPrefixOf_nil_left]
        rfl
    | cons x p' => simp [containsSub] at h
  | cons c a' ih =>
    have h' : (p.isPrefixOf (c :: a') || containsSub p a') = true := h
    rcases (Bool.or_eq_true _ _).mp h' with h1 | h2
    · show (p.isPrefixOf (c :: (a' ++ b)) || containsSub p (a' ++ b)) = true
      have hp := isPrefixOf_append_of_isPrefixOf p (c :: a') b h1
      rw [List.cons_append] at hp
      rw [hp]
      rfl
    · show (p.isPrefixOf (c :: (a' ++ b)) || containsSub p (a' ++ b)) = true
      rw [ih h2]
      exact Bool.or_true _

lemma containsSub_middle (p a b : List Char) : containsSub p (a ++ (p ++ b)) = true :=
  containsSub_append_right p a _ (containsSub_of_isPrefixOf _ _ (isPrefixOf_append_self p b))

set_option maxRecDepth 40000 in
/-- Claim C7 (amended): for every topic and explanation, the composed
request of the web Prompt Builder — the system rubric instruction
followed by the formatted user query — contains the literal topic
text, the literal explanation text, and the weight constants as the
source writes them, 0.8 / 0.15 / 0.05; and prompt construction is a
deterministic function of its inputs.  (The claim's literal spelling
`0.80` does not occur in the web prompt; see the counterexample.) -/
theorem prompt_contains_inputs_and_weights (topic explanation : String) :
    containsSub topic.data (composedPromptApp topic explanation).data = true
    ∧ containsSub explanation.data (composedPromptApp topic explanation).data = true
    ∧ containsSub ("0.8".data) (composedPromptApp topic explanation).data = true
    ∧ containsSub ("0.15".data) (composedPromptApp topic explanation).data = true
    ∧ containsSub ("0.05".data) (composedPromptApp topic explanation).data = true
    ∧ (∀ t e : String, topic = t → explanation = e →
        composedPromptApp topic explanation = composedPromptApp t e) := by
  refine ⟨?_, ?_, ?_, ?_, ?_, ?_⟩
  · have hd : (composedPromptApp topic explanation).data =
        (sysPromptApp.data ++ "Topic: ".data) ++
          (topic.data ++ ("\n\nUser\x27s explanation:\n".data ++
            (explanation.data ++
              "\n\nPlease evaluate according to the rubric.".data))) := by
      simp [composedPromptApp, buildQuery, str_data_append, List.append_assoc]
    rw [hd]
    exact containsSub_middle _ _ _
  · have hd : (composedPromptApp topic explanation).data =
        (((sysPromptApp.data ++ "Topic: ".data) ++ topic.data) ++
            "\n\nUser\x27s explanation:\n".data) ++
          (explanation.data ++
            "\n\nPlease evaluate according to the rubric.".data) := by
      simp [composedPromptApp, buildQuery, str_data_append, List.append_assoc]
    rw [hd]
    exact containsSub_middle _ _ _
  · exact containsSub_append_left _ _ ((buildQuery topic explanation).data) rfl
  · exact containsSub_append_left _ _ ((buildQuery topic explanation).data) rfl
  · exact containsSub_append_left _ _ ((buildQuery topic explanation).data) rfl
  · intro t e ht he
    rw [ht, he]

/-- Witness for C7 at concrete inputs. -/
theorem prompt_contains_inputs_and_weights_witness :
    containsSub ("Photosynthesis".data)
      (composedPromptApp "Photosynthesis" "Plants use light.").data = true
    ∧ composedPromptApp "Photosynthesis" "Plants use light." =
        composedPromptApp "Photosynthesis" "Plants use light." :=
  ⟨(prompt_contains_inputs_and_weights "Photosynthesis" "Plants use light.").1,
   (prompt_contains_inputs_and_weights "Photosynthesis"
      "Plants use light.").2.2.2.2.2 "Photosynthesis" "Plants use light." rfl rfl⟩

set_option maxRecDepth 40000 in
/-- Counterexample for C7 as stated: at topic "T" and explanation "E"
the composed web prompt does not contain the literal "0.80" — the
source of the web app writes the content weight as "0.8" (only the
console variant in teach_eval.py spells it "0.80"). -/
theorem prompt_weight_literal_counterexample :
    containsSub ("0.80".data) (composedPromptApp "T" "E").data = false
    ∧ containsSub ("0.8".data) (composedPromptApp "T" "E").data = true :=
  ⟨rfl, rfl⟩
